import Mathlib

/-!
Verification of the Config-to-Description transformer of
tools/variations/fieldtrial_to_struct.py (the field-trial configuration
to struct converter of this repository).

The repository ships only the unit tests of the transformer
(tools/variations/fieldtrial_to_struct_unittest.py); the module
fieldtrial_to_struct.py itself is absent.  The transformer is therefore
modelled from the specification, and the model is validated against every
expected value pinned by the unit tests (theorems
model_matches_test_basic, model_matches_test_multi_ios,
model_matches_test_multi_mac, model_matches_test_form_factors below
reproduce the four in-memory test expectations exactly).

Python dictionaries are embedded as association lists of key/value pairs
(JValue.obj); dictionary equality in the tests is key-order insensitive,
so all key-name properties are stated through the order-insensitive
lookup JValue.getKey, and literal object values are built in one fixed
canonical key order.
-/

/-- A JSON-like value: the shape of both the configuration dictionaries
and the nested output description produced by the transformer. -/
inductive JValue where
  | str  : String → JValue
  | list : List JValue → JValue
  | obj  : List (String × JValue) → JValue

/-- Order-insensitive key lookup in an association list. -/
def lookupKey : List (String × JValue) → String → Option JValue
  | [], _ => none
  | (k, v) :: rest, key => if k = key then some v else lookupKey rest key

/-- Field access on an object value; none on non-objects. -/
def JValue.getKey : JValue → String → Option JValue
  | .obj kvs, key => lookupKey kvs key
  | _, _ => none

/-- Element access on a list value; none on non-lists. -/
def JValue.atIdx : JValue → Nat → Option JValue
  | .list xs, i => xs.get? i
  | _, _ => none

/-- One experiment group of a trial, as declared in the input
configuration: name, optional ordered params, optional feature lists and
optional forcing flag. -/
structure Experiment where
  name : String
  params : List (String × String) := []
  enable_features : Option (List String) := none
  disable_features : Option (List String) := none
  forcing_flag : Option String := none
deriving DecidableEq, Repr

/-- One platform-scoped variant of a trial: the platform tags it targets,
optional form-factor tags, the optional low-end-device flag, and its
experiment groups. -/
structure PlatformConfig where
  platforms : List String
  form_factors : List String := []
  is_low_end_device : Option Bool := none
  experiments : List Experiment
deriving DecidableEq, Repr

/-- The input configuration: an ordered mapping from trial name to its
sequence of PlatformConfig entries. -/
abbrev FieldTrialConfig := List (String × List PlatformConfig)

/-- Modelled from the spec: the closed platform-tag enumeration of
fieldtrial_to_struct.py (absent from src), mapping each supported
platform name to its symbolic constant.  The symbol strings are pinned
by the unit tests (Study::PLATFORM_WINDOWS, Study::PLATFORM_IOS,
Study::PLATFORM_MAC); the remaining tags follow the spec enumeration
windows, mac, linux, ios, android, chromeos, fuchsia. -/
def platform_symbol : String → Option String
  | "windows"  => some "Study::PLATFORM_WINDOWS"
  | "mac"      => some "Study::PLATFORM_MAC"
  | "linux"    => some "Study::PLATFORM_LINUX"
  | "ios"      => some "Study::PLATFORM_IOS"
  | "android"  => some "Study::PLATFORM_ANDROID"
  | "chromeos" => some "Study::PLATFORM_CHROMEOS"
  | "fuchsia"  => some "Study::PLATFORM_FUCHSIA"
  | _ => none

/-- Modelled from the spec: the closed form-factor enumeration of
fieldtrial_to_struct.py (absent from src).  The symbol strings
Study::DESKTOP, Study::PHONE, Study::TABLET are pinned by the unit
tests. -/
def form_factor_symbol : String → Option String
  | "desktop" => some "Study::DESKTOP"
  | "phone"   => some "Study::PHONE"
  | "tablet"  => some "Study::TABLET"
  | _ => none

/-- Modelled from the spec: the tri-state low-end-device flag symbol.
The symbol strings are pinned by the unit tests. -/
def optional_bool_symbol : Option Bool → String
  | none       => "Study::OPTIONAL_BOOL_MISSING"
  | some true  => "Study::OPTIONAL_BOOL_TRUE"
  | some false => "Study::OPTIONAL_BOOL_FALSE"

/-- Map every tag of a list through an enumeration table, failing
fast with a schema-violation error naming the first unknown tag. -/
def mapSymbols (tbl : String → Option String) : List String → Except String (List String)
  | [] => .ok []
  | t :: ts =>
    match tbl t with
    | none => .error ("Unknown tag: " ++ t)
    | some s =>
      match mapSymbols tbl ts with
      | .error m => .error m
      | .ok ss => .ok (s :: ss)

/-- A PlatformConfig entry is selected when its platforms set contains at
least one of the queried platforms. -/
def entryMatches (platforms : List String) (pc : PlatformConfig) : Bool :=
  platforms.any (fun p => pc.platforms.contains p)

/-- Modelled from the spec: the per-experiment translation of
fieldtrial_to_struct.py (absent from src), spec section 4 step 3.  The
output experiment echoes the queried platform symbols, keeps params as
an ordered key/value pair list (omitted when empty), passes the feature
lists and the forcing flag through verbatim when present (omitted when
absent), and takes the low-end-device symbol and the form-factor symbols
from the enclosing PlatformConfig. -/
def _CreateExperiment (e : Experiment) (qsyms : List String)
    (lowEnd : Option Bool) (ffSyms : List String) : JValue :=
  .obj ([("name", .str e.name),
         ("platforms", .list (qsyms.map .str)),
         ("is_low_end_device", .str (optional_bool_symbol lowEnd)),
         ("form_factors", .list (ffSyms.map .str))]
    ++ (if e.params = [] then []
        else [("params", .list (e.params.map fun kv =>
              .obj [("key", .str kv.1), ("value", .str kv.2)]))])
    ++ (match e.enable_features with
        | none => []
        | some fs => [("enable_features", .list (fs.map .str))])
    ++ (match e.disable_features with
        | none => []
        | some fs => [("disable_features", .list (fs.map .str))])
    ++ (match e.forcing_flag with
        | none => []
        | some f => [("forcing_flag", .str f)]))

/-- Modelled from the spec: the per-trial experiment collection of
fieldtrial_to_struct.py (absent from src).  Every entry of the trial is
validated eagerly against the closed platform and form-factor
enumerations (spec section 4, error conditions); every entry whose
platforms set meets the query contributes its experiments, concatenated
in declaration order.  The unit test
test_FieldTrialToDescriptionMultipleSinglePlatformMultipleTrial pins
this merge of all matching entries (the IOSOnly group of a second
matching entry appears after the groups of the first). -/
def _CreateTrialExperiments (qsyms platforms : List String) :
    List PlatformConfig → Except String (List JValue)
  | [] => .ok []
  | pc :: rest =>
    match mapSymbols platform_symbol pc.platforms with
    | .error m => .error m
    | .ok _ =>
      match mapSymbols form_factor_symbol pc.form_factors with
      | .error m => .error m
      | .ok ffSyms =>
        match _CreateTrialExperiments qsyms platforms rest with
        | .error m => .error m
        | .ok restExps =>
          if entryMatches platforms pc then
            .ok (pc.experiments.map
                   (fun e => _CreateExperiment e qsyms pc.is_low_end_device ffSyms)
                 ++ restExps)
          else .ok restExps

/-- Modelled from the spec: the study list assembly of
fieldtrial_to_struct.py (absent from src).  Trials are scanned in
declaration order; a trial with no matching PlatformConfig is omitted
entirely, the others become one Study each. -/
def _CreateStudies (qsyms platforms : List String) :
    FieldTrialConfig → Except String (List JValue)
  | [] => .ok []
  | (name, entries) :: rest =>
    match _CreateTrialExperiments qsyms platforms entries with
    | .error m => .error m
    | .ok exps =>
      match _CreateStudies qsyms platforms rest with
      | .error m => .error m
      | .ok restStudies =>
        if entries.any (entryMatches platforms) then
          .ok (.obj [("name", .str name), ("experiments", .list exps)] :: restStudies)
        else .ok restStudies

/-- Modelled from the spec: _FieldTrialConfigToDescription of
fieldtrial_to_struct.py (absent from src).  Takes the configuration and
the list of queried platform tags, validates the query against the
closed platform enumeration, and wraps the study list in the fixed
elements / kFieldTrialConfig / studies nesting pinned by the unit
tests. -/
def _FieldTrialConfigToDescription (config : FieldTrialConfig)
    (platforms : List String) : Except String JValue :=
  match mapSymbols platform_symbol platforms with
  | .error m => .error m
  | .ok qsyms =>
    match _CreateStudies qsyms platforms config with
    | .error m => .error m
    | .ok studies =>
      .ok (.obj [("elements", .obj [("kFieldTrialConfig",
            .obj [("studies", .list studies)])])])

/-- The studies list of a description value, through the nesting
elements / kFieldTrialConfig / studies observed in the unit tests. -/
def resultStudies (r : JValue) : Option (List JValue) :=
  match ((r.getKey "elements").bind
          (fun e => e.getKey "kFieldTrialConfig")).bind
          (fun k => k.getKey "studies") with
  | some (.list s) => some s
  | _ => none

/-- The configuration of test_FieldTrialToDescription in
fieldtrial_to_struct_unittest.py. -/
def basicConfig : FieldTrialConfig :=
  [("Trial1",
     [{ platforms := ["windows"],
        experiments :=
          [{ name := "Group1",
             params := [("x", "1"), ("y", "2")],
             enable_features := some ["A", "B"],
             disable_features := some ["C"] },
           { name := "Group2",
             params := [("x", "3"), ("y", "4")],
             enable_features := some ["D", "E"],
             disable_features := some ["F"] }] }]),
   ("Trial2",
     [{ platforms := ["windows"],
        experiments := [{ name := "OtherGroup" }] }]),
   ("TrialWithForcingFlag",
     [{ platforms := ["windows"],
        experiments :=
          [{ name := "ForcedGroup",
             forcing_flag := some "my-forcing-flag" }] }])]

/-- The expected studies of test_FieldTrialToDescription, in the canonical
key order of the model. -/
def basicExpectedStudies : List JValue :=
  [.obj [("name", .str "Trial1"),
         ("experiments", .list
           [.obj [("name", .str "Group1"),
                  ("platforms", .list [.str "Study::PLATFORM_WINDOWS"]),
                  ("is_low_end_device", .str "Study::OPTIONAL_BOOL_MISSING"),
                  ("form_factors", .list []),
                  ("params", .list
                    [.obj [("key", .str "x"), ("value", .str "1")],
                     .obj [("key", .str "y"), ("value", .str "2")]]),
                  ("enable_features", .list [.str "A", .str "B"]),
                  ("disable_features", .list [.str "C"])],
            .obj [("name", .str "Group2"),
                  ("platforms", .list [.str "Study::PLATFORM_WINDOWS"]),
                  ("is_low_end_device", .str "Study::OPTIONAL_BOOL_MISSING"),
                  ("form_factors", .list []),
                  ("params", .list
                    [.obj [("key", .str "x"), ("value", .str "3")],
                     .obj [("key", .str "y"), ("value", .str "4")]]),
                  ("enable_features", .list [.str "D", .str "E"]),
                  ("disable_features", .list [.str "F"])]])],
   .obj [("name", .str "Trial2"),
         ("experiments", .list
           [.obj [("name", .str "OtherGroup"),
                  ("platforms", .list [.str "Study::PLATFORM_WINDOWS"]),
                  ("is_low_end_device", .str "Study::OPTIONAL_BOOL_MISSING"),
                  ("form_factors", .list [])]])],
   .obj [("name", .str "TrialWithForcingFlag"),
         ("experiments", .list
           [.obj [("name", .str "ForcedGroup"),
                  ("platforms", .list [.str "Study::PLATFORM_WINDOWS"]),
                  ("is_low_end_device", .str "Study::OPTIONAL_BOOL_MISSING"),
                  ("form_factors", .list []),
                  ("forcing_flag", .str "my-forcing-flag")]])]]

/-- The model reproduces the expected description of
test_FieldTrialToDescription, key names, nesting and values included. -/
theorem model_matches_test_basic :
    _FieldTrialConfigToDescription basicConfig ["windows"] =
      .ok (.obj [("elements", .obj [("kFieldTrialConfig",
            .obj [("studies", .list basicExpectedStudies)])])]) := rfl

/-- The _MULTIPLE_PLATFORM_CONFIG fixture of
fieldtrial_to_struct_unittest.py. -/
def multiPlatformConfig : FieldTrialConfig :=
  [("Trial1",
     [{ platforms := ["windows", "ios"],
        is_low_end_device := some true,
        experiments :=
          [{ name := "Group1",
             params := [("x", "1"), ("y", "2")],
             enable_features := some ["A", "B"],
             disable_features := some ["C"] },
           { name := "Group2",
             params := [("x", "3"), ("y", "4")],
             enable_features := some ["D", "E"],
             disable_features := some ["F"] }] },
      { platforms := ["ios"],
        experiments := [{ name := "IOSOnly" }] }]),
   ("Trial2",
     [{ platforms := ["windows", "mac"],
        experiments := [{ name := "OtherGroup" }] }])]

/-- The expected studies of
test_FieldTrialToDescriptionMultipleSinglePlatformMultipleTrial:
querying ios, both matching entries of Trial1 contribute, and each
contributed experiment carries the low-end-device symbol of its own
entry. -/
def multiIosExpectedStudies : List JValue :=
  [.obj [("name", .str "Trial1"),
         ("experiments", .list
           [.obj [("name", .str "Group1"),
                  ("platforms", .list [.str "Study::PLATFORM_IOS"]),
                  ("is_low_end_device", .str "Study::OPTIONAL_BOOL_TRUE"),
                  ("form_factors", .list []),
                  ("params", .list
                    [.obj [("key", .str "x"), ("value", .str "1")],
                     .obj [("key", .str "y"), ("value", .str "2")]]),
                  ("enable_features", .list [.str "A", .str "B"]),
                  ("disable_features", .list [.str "C"])],
            .obj [("name", .str "Group2"),
                  ("platforms", .list [.str "Study::PLATFORM_IOS"]),
                  ("is_low_end_device", .str "Study::OPTIONAL_BOOL_TRUE"),
                  ("form_factors", .list []),
                  ("params", .list
                    [.obj [("key", .str "x"), ("value", .str "3")],
                     .obj [("key", .str "y"), ("value", .str "4")]]),
                  ("enable_features", .list [.str "D", .str "E"]),
                  ("disable_features", .list [.str "F"])],
            .obj [("name", .str "IOSOnly"),
                  ("platforms", .list [.str "Study::PLATFORM_IOS"]),
                  ("is_low_end_device", .str "Study::OPTIONAL_BOOL_MISSING"),
                  ("form_factors", .list [])]])]]

/-- The model reproduces the expected description of
test_FieldTrialToDescriptionMultipleSinglePlatformMultipleTrial. -/
theorem model_matches_test_multi_ios :
    _FieldTrialConfigToDescription multiPlatformConfig ["ios"] =
      .ok (.obj [("elements", .obj [("kFieldTrialConfig",
            .obj [("studies", .list multiIosExpectedStudies)])])]) := rfl

/-- The expected studies of
test_FieldTrialToDescriptionMultipleSinglePlatformSingleTrial: querying
mac, only Trial2 survives. -/
def multiMacExpectedStudies : List JValue :=
  [.obj [("name", .str "Trial2"),
         ("experiments", .list
           [.obj [("name", .str "OtherGroup"),
                  ("platforms", .list [.str "Study::PLATFORM_MAC"]),
                  ("is_low_end_device", .str "Study::OPTIONAL_BOOL_MISSING"),
                  ("form_factors", .list [])]])]]

/-- The model reproduces the expected description of
test_FieldTrialToDescriptionMultipleSinglePlatformSingleTrial. -/
theorem model_matches_test_multi_mac :
    _FieldTrialConfigToDescription multiPlatformConfig ["mac"] =
      .ok (.obj [("elements", .obj [("kFieldTrialConfig",
            .obj [("studies", .list multiMacExpectedStudies)])])]) := rfl

/-- The _MULTIPLE_FORM_FACTORS_CONFIG fixture of
fieldtrial_to_struct_unittest.py. -/
def multiFormFactorsConfig : FieldTrialConfig :=
  [("Trial1",
     [{ platforms := ["windows"],
        form_factors := ["desktop", "phone"],
        experiments := [{ name := "Group1" }] }]),
   ("Trial2",
     [{ platforms := ["windows"],
        form_factors := ["tablet"],
        experiments := [{ name := "OtherGroup" }] }])]

/-- The expected studies of
test_FieldTrialToDescriptionMultipleFormFactorsTrial. -/
def formFactorsExpectedStudies : List JValue :=
  [.obj [("name", .str "Trial1"),
         ("experiments", .list
           [.obj [("name", .str "Group1"),
                  ("platforms", .list [.str "Study::PLATFORM_WINDOWS"]),
                  ("is_low_end_device", .str "Study::OPTIONAL_BOOL_MISSING"),
                  ("form_factors", .list
                    [.str "Study::DESKTOP", .str "Study::PHONE"])]])],
   .obj [("name", .str "Trial2"),
         ("experiments", .list
           [.obj [("name", .str "OtherGroup"),
                  ("platforms", .list [.str "Study::PLATFORM_WINDOWS"]),
                  ("is_low_end_device", .str "Study::OPTIONAL_BOOL_MISSING"),
                  ("form_factors", .list [.str "Study::TABLET"])]])]]

/-- The model reproduces the expected description of
test_FieldTrialToDescriptionMultipleFormFactorsTrial. -/
theorem model_matches_test_form_factors :
    _FieldTrialConfigToDescription multiFormFactorsConfig ["windows"] =
      .ok (.obj [("elements", .obj [("kFieldTrialConfig",
            .obj [("studies", .list formFactorsExpectedStudies)])])]) := rfl

/-- Every platform tag and every form-factor tag of the entry belongs to
its closed enumeration. -/
def validEntry (pc : PlatformConfig) : Bool :=
  pc.platforms.all (fun t => (platform_symbol t).isSome) &&
  pc.form_factors.all (fun t => (form_factor_symbol t).isSome)

/-- Every entry of every trial of the configuration carries only known
enumeration tags. -/
def validConfig (cfg : FieldTrialConfig) : Bool :=
  cfg.all (fun tr => tr.2.all validEntry)

/-- A trial is kept in the output when at least one of its entries
matches the query. -/
def trialHasMatch (platforms : List String) (tr : String × List PlatformConfig) : Bool :=
  tr.2.any (entryMatches platforms)

/-- Declarative form of the experiment list of one study: every matching
entry contributes its experiments in declaration order, each translated
with the low-end-device flag and form factors of its own entry. -/
def studyExperimentsSpec (qsyms platforms : List String)
    (entries : List PlatformConfig) : List JValue :=
  (entries.filter (entryMatches platforms)).flatMap (fun pc =>
    pc.experiments.map (fun e =>
      _CreateExperiment e qsyms pc.is_low_end_device
        (pc.form_factors.filterMap form_factor_symbol)))

/-- Declarative form of the studies list: the trials with a matching
entry, in declaration order, each as one study object. -/
def studiesSpec (qsyms platforms : List String) (cfg : FieldTrialConfig) : List JValue :=
  (cfg.filter (trialHasMatch platforms)).map (fun tr =>
    .obj [("name", .str tr.1),
          ("experiments", .list (studyExperimentsSpec qsyms platforms tr.2))])

theorem mapSymbols_ok_of_valid (tbl : String → Option String) (ts : List String)
    (h : ts.all (fun t => (tbl t).isSome) = true) :
    mapSymbols tbl ts = .ok (ts.filterMap tbl) := by
  induction ts with
  | nil => rfl
  | cons t ts ih =>
    rw [List.all_cons, Bool.and_eq_true] at h
    obtain ⟨s, hs⟩ := Option.isSome_iff_exists.mp h.1
    rw [mapSymbols, hs, ih h.2, List.filterMap_cons, hs]

theorem mapSymbols_error_of_unknown (tbl : String → Option String) (ts : List String)
    (h : ∃ t ∈ ts, tbl t = none) :
    ∃ m, mapSymbols tbl ts = .error m := by
  induction ts with
  | nil => simp at h
  | cons t ts ih =>
    obtain ⟨u, hu, hnone⟩ := h
    rcases List.mem_cons.mp hu with rfl | hmem
    · exact ⟨"Unknown tag: " ++ u, by rw [mapSymbols, hnone]⟩
    · cases hh : tbl t with
      | none => exact ⟨"Unknown tag: " ++ t, by rw [mapSymbols, hh]⟩
      | some s =>
        obtain ⟨m, hm⟩ := ih ⟨u, hmem, hnone⟩
        exact ⟨m, by rw [mapSymbols, hh, hm]⟩

theorem createTrialExperiments_eq_spec (qsyms platforms : List String)
    (entries : List PlatformConfig) (h : entries.all validEntry = true) :
    _CreateTrialExperiments qsyms platforms entries =
      .ok (studyExperimentsSpec qsyms platforms entries) := by
  induction entries with
  | nil => rfl
  | cons pc rest ih =>
    rw [List.all_cons, Bool.and_eq_true] at h
    rw [validEntry, Bool.and_eq_true] at *
    rw [_CreateTrialExperiments,
        mapSymbols_ok_of_valid platform_symbol pc.platforms h.1.1,
        mapSymbols_ok_of_valid form_factor_symbol pc.form_factors h.1.2,
        ih h.2]
    unfold studyExperimentsSpec
    cases hm : entryMatches platforms pc with
    | false => simp [List.filter_cons, hm]
    | true => simp [List.filter_cons, hm, studyExperimentsSpec]

theorem createStudies_eq_spec (qsyms platforms : List String)
    (cfg : FieldTrialConfig) (h : validConfig cfg = true) :
    _CreateStudies qsyms platforms cfg = .ok (studiesSpec qsyms platforms cfg) := by
  induction cfg with
  | nil => rfl
  | cons tr rest ih =>
    rw [validConfig, List.all_cons, Bool.and_eq_true] at h
    obtain ⟨name, entries⟩ := tr
    rw [_CreateStudies, createTrialExperiments_eq_spec qsyms platforms entries h.1,
        ih h.2]
    unfold studiesSpec trialHasMatch
    cases hm : entries.any (entryMatches platforms) with
    | false => simp [List.filter_cons, hm, studiesSpec, trialHasMatch]
    | true => simp [List.filter_cons, hm, studiesSpec, trialHasMatch]

theorem description_eq_spec (cfg : FieldTrialConfig) (platforms : List String)
    (hq : platforms.all (fun t => (platform_symbol t).isSome) = true)
    (hc : validConfig cfg = true) :
    _FieldTrialConfigToDescription cfg platforms =
      .ok (.obj [("elements", .obj [("kFieldTrialConfig", .obj [("studies",
        .list (studiesSpec (platforms.filterMap platform_symbol) platforms cfg))])])]) := by
  simp only [_FieldTrialConfigToDescription,
      mapSymbols_ok_of_valid platform_symbol platforms hq,
      createStudies_eq_spec (platforms.filterMap platform_symbol) platforms cfg hc]

theorem resultStudies_wrap (s : List JValue) :
    resultStudies (.obj [("elements", .obj [("kFieldTrialConfig",
      .obj [("studies", .list s)])])]) = some s := rfl

theorem getKey_name (e : Experiment) (qsyms : List String)
    (lowEnd : Option Bool) (ffSyms : List String) :
    (_CreateExperiment e qsyms lowEnd ffSyms).getKey "name" = some (.str e.name) := rfl

theorem getKey_platforms (e : Experiment) (qsyms : List String)
    (lowEnd : Option Bool) (ffSyms : List String) :
    (_CreateExperiment e qsyms lowEnd ffSyms).getKey "platforms" =
      some (.list (qsyms.map .str)) := rfl

theorem getKey_low_end (e : Experiment) (qsyms : List String)
    (lowEnd : Option Bool) (ffSyms : List String) :
    (_CreateExperiment e qsyms lowEnd ffSyms).getKey "is_low_end_device" =
      some (.str (optional_bool_symbol lowEnd)) := rfl

theorem getKey_form_factors (e : Experiment) (qsyms : List String)
    (lowEnd : Option Bool) (ffSyms : List String) :
    (_CreateExperiment e qsyms lowEnd ffSyms).getKey "form_factors" =
      some (.list (ffSyms.map .str)) := rfl

theorem study_getKey_name (n : String) (exps : List JValue) :
    (JValue.obj [("name", .str n), ("experiments", .list exps)]).getKey "name" =
      some (.str n) := rfl

theorem study_getKey_experiments (n : String) (exps : List JValue) :
    (JValue.obj [("name", .str n), ("experiments", .list exps)]).getKey "experiments" =
      some (.list exps) := rfl

theorem createTrialExperiments_error_of_unknown (qsyms platforms : List String)
    (entries : List PlatformConfig)
    (h : ∃ pc ∈ entries, (∃ t ∈ pc.platforms, platform_symbol t = none) ∨
           (∃ t ∈ pc.form_factors, form_factor_symbol t = none)) :
    ∃ m, _CreateTrialExperiments qsyms platforms entries = .error m := by
  induction entries with
  | nil => simp at h
  | cons pc rest ih =>
    obtain ⟨pc0, hpc0, hbad⟩ := h
    rcases List.mem_cons.mp hpc0 with rfl | hmem
    · rcases hbad with hp | hf
      · obtain ⟨m, hm⟩ := mapSymbols_error_of_unknown platform_symbol pc0.platforms hp
        exact ⟨m, by rw [_CreateTrialExperiments, hm]⟩
      · cases hh : mapSymbols platform_symbol pc0.platforms with
        | error m => exact ⟨m, by rw [_CreateTrialExperiments, hh]⟩
        | ok ss =>
          obtain ⟨m, hm⟩ := mapSymbols_error_of_unknown form_factor_symbol pc0.form_factors hf
          exact ⟨m, by rw [_CreateTrialExperiments, hh, hm]⟩
    · obtain ⟨m, hm⟩ := ih ⟨pc0, hmem, hbad⟩
      cases hh : mapSymbols platform_symbol pc.platforms with
      | error m1 => exact ⟨m1, by rw [_CreateTrialExperiments, hh]⟩
      | ok ss =>
        cases hh2 : mapSymbols form_factor_symbol pc.form_factors with
        | error m2 => exact ⟨m2, by rw [_CreateTrialExperiments, hh, hh2]⟩
        | ok ffs => exact ⟨m, by rw [_CreateTrialExperiments, hh, hh2, hm]⟩

theorem createStudies_error_of_unknown (qsyms platforms : List String)
    (cfg : FieldTrialConfig)
    (h : ∃ tr ∈ cfg, ∃ pc ∈ tr.2, (∃ t ∈ pc.platforms, platform_symbol t = none) ∨
           (∃ t ∈ pc.form_factors, form_factor_symbol t = none)) :
    ∃ m, _CreateStudies qsyms platforms cfg = .error m := by
  induction cfg with
  | nil => simp at h
  | cons tr rest ih =>
    obtain ⟨tr0, htr0, hbad⟩ := h
    obtain ⟨name, entries⟩ := tr
    rcases List.mem_cons.mp htr0 with rfl | hmem
    · obtain ⟨m, hm⟩ :=
        createTrialExperiments_error_of_unknown qsyms platforms entries hbad
      exact ⟨m, by rw [_CreateStudies, hm]⟩
    · obtain ⟨m, hm⟩ := ih ⟨tr0, hmem, hbad⟩
      cases hh : _CreateTrialExperiments qsyms platforms entries with
      | error m1 => exact ⟨m1, by rw [_CreateStudies, hh]⟩
      | ok exps => exact ⟨m, by rw [_CreateStudies, hh, hm]⟩

/-- Field of one output experiment, reached through the nesting
elements / kFieldTrialConfig / studies, a study index, the experiments
key and an experiment index. -/
def experimentField (res : Except String JValue) (studyIdx expIdx : Nat)
    (field : String) : Option JValue :=
  match res with
  | .error _ => none
  | .ok r =>
    match resultStudies r with
    | none => none
    | some studies =>
      match studies.get? studyIdx with
      | none => none
      | some st =>
        match st.getKey "experiments" with
        | some (.list exps) =>
          match exps.get? expIdx with
          | none => none
          | some ex => ex.getKey field
        | _ => none

/-- The first-match-wins example of the spec: a trial whose first entry
targets windows and mac and whose second entry targets windows only. -/
def firstMatchExampleConfig : FieldTrialConfig :=
  [("T", [{ platforms := ["windows", "mac"], experiments := [{ name := "E1" }] },
          { platforms := ["windows"], experiments := [{ name := "E2" }] }])]

/-- The literal scenario of the spec: one trial, one windows entry, one
experiment with a single parameter. -/
def literalScenarioConfig : FieldTrialConfig :=
  [("T", [{ platforms := ["windows"],
            experiments := [{ name := "G1", params := [("x", "1")] }] }])]

/-- A configuration whose single entry declares the unknown platform tag
atari. -/
def atariConfig : FieldTrialConfig :=
  [("T", [{ platforms := ["atari"], experiments := [{ name := "G" }] }])]

theorem filterMap_length_of_isSome {α β : Type} (f : α → Option β) (l : List α)
    (h : l.all (fun x => (f x).isSome) = true) :
    (l.filterMap f).length = l.length := by
  induction l with
  | nil => rfl
  | cons x xs ih =>
    rw [List.all_cons, Bool.and_eq_true] at h
    obtain ⟨y, hy⟩ := Option.isSome_iff_exists.mp h.1
    rw [List.filterMap_cons, hy]
    simp [ih h.2]

theorem validEntry_of_mem (cfg : FieldTrialConfig) (n : String)
    (entries : List PlatformConfig) (pc : PlatformConfig)
    (hc : validConfig cfg = true) (hmem : (n, entries) ∈ cfg)
    (hpc : pc ∈ entries) : validEntry pc = true := by
  rw [validConfig, List.all_eq_true] at hc
  have h2 := hc (n, entries) hmem
  rw [List.all_eq_true] at h2
  exact h2 pc hpc

/-- C4: every PlatformConfig entry whose platforms set contains a queried
platform contributes its experiments to the single Study of its trial,
concatenated in entry declaration order, and each contributed experiment
is translated with the low-end-device flag and form factors of its own
contributing entry. -/
theorem studies_merge_all_matching_entries
    (cfg : FieldTrialConfig) (platforms : List String) (r : JValue)
    (hq : platforms.all (fun t => (platform_symbol t).isSome) = true)
    (hc : validConfig cfg = true)
    (hok : _FieldTrialConfigToDescription cfg platforms = .ok r) :
    resultStudies r =
      some ((cfg.filter (trialHasMatch platforms)).map (fun tr =>
        .obj [("name", .str tr.1),
              ("experiments", .list
                ((tr.2.filter (entryMatches platforms)).flatMap (fun pc =>
                  pc.experiments.map (fun e =>
                    _CreateExperiment e (platforms.filterMap platform_symbol)
                      pc.is_low_end_device
                      (pc.form_factors.filterMap form_factor_symbol)))))])) := by
  rw [description_eq_spec cfg platforms hq hc] at hok
  cases hok
  exact resultStudies_wrap _

/-- Witness for C4 at the multi-platform fixture queried for ios. -/
theorem studies_merge_all_matching_entries_witness :
    (["ios"].all (fun t => (platform_symbol t).isSome) = true) ∧
    (validConfig multiPlatformConfig = true) ∧
    resultStudies (.obj [("elements", .obj [("kFieldTrialConfig",
        .obj [("studies", .list multiIosExpectedStudies)])])]) =
      some ((multiPlatformConfig.filter (trialHasMatch ["ios"])).map (fun tr =>
        .obj [("name", .str tr.1),
              ("experiments", .list
                ((tr.2.filter (entryMatches ["ios"])).flatMap (fun pc =>
                  pc.experiments.map (fun e =>
                    _CreateExperiment e (["ios"].filterMap platform_symbol)
                      pc.is_low_end_device
                      (pc.form_factors.filterMap form_factor_symbol)))))])) :=
  ⟨by decide, by decide,
   studies_merge_all_matching_entries multiPlatformConfig ["ios"] _
     (by decide) (by decide) model_matches_test_multi_ios⟩

/-- C5: the low-end-device flag of an output experiment is the symbol of
the flag declared by its own contributing PlatformConfig entry: MISSING
when the entry declares none, TRUE for true, FALSE for false, identical
for every experiment of that entry. -/
theorem low_end_flag_inherited_from_entry
    (cfg : FieldTrialConfig) (platforms : List String) (r : JValue)
    (hq : platforms.all (fun t => (platform_symbol t).isSome) = true)
    (hc : validConfig cfg = true)
    (hok : _FieldTrialConfigToDescription cfg platforms = .ok r)
    (n : String) (entries : List PlatformConfig) (pc : PlatformConfig)
    (e : Experiment) (hmem : (n, entries) ∈ cfg) (hpc : pc ∈ entries)
    (hm : entryMatches platforms pc = true) (he : e ∈ pc.experiments) :
    (optional_bool_symbol none = "Study::OPTIONAL_BOOL_MISSING" ∧
     optional_bool_symbol (some true) = "Study::OPTIONAL_BOOL_TRUE" ∧
     optional_bool_symbol (some false) = "Study::OPTIONAL_BOOL_FALSE") ∧
    ∃ studies, resultStudies r = some studies ∧
      ∃ s ∈ studies, s.getKey "name" = some (.str n) ∧
        ∃ exps, s.getKey "experiments" = some (.list exps) ∧
          ∃ ex ∈ exps, ex.getKey "name" = some (.str e.name) ∧
            ex.getKey "is_low_end_device" =
              some (.str (optional_bool_symbol pc.is_low_end_device)) := by
  refine ⟨⟨rfl, rfl, rfl⟩, ?_⟩
  rw [description_eq_spec cfg platforms hq hc] at hok
  cases hok
  refine ⟨_, resultStudies_wrap _, ?_⟩
  refine ⟨.obj [("name", .str n),
               ("experiments", .list (studyExperimentsSpec
                 (platforms.filterMap platform_symbol) platforms entries))],
          ?_, study_getKey_name _ _, ?_⟩
  · rw [studiesSpec]
    exact List.mem_map.mpr ⟨(n, entries),
      List.mem_filter.mpr ⟨hmem, List.any_eq_true.mpr ⟨pc, hpc, hm⟩⟩, rfl⟩
  · refine ⟨_, study_getKey_experiments _ _, ?_⟩
    refine ⟨_CreateExperiment e (platforms.filterMap platform_symbol)
              pc.is_low_end_device
              (pc.form_factors.filterMap form_factor_symbol), ?_,
            getKey_name _ _ _ _, getKey_low_end _ _ _ _⟩
    rw [studyExperimentsSpec]
    exact List.mem_flatMap.mpr ⟨pc, List.mem_filter.mpr ⟨hpc, hm⟩,
      List.mem_map.mpr ⟨e, he, rfl⟩⟩

/-- Witness for C5: the IOSOnly experiment of the multi-platform fixture
inherits the MISSING symbol of its own (second) entry. -/
theorem low_end_flag_inherited_from_entry_witness :
    (optional_bool_symbol none = "Study::OPTIONAL_BOOL_MISSING" ∧
     optional_bool_symbol (some true) = "Study::OPTIONAL_BOOL_TRUE" ∧
     optional_bool_symbol (some false) = "Study::OPTIONAL_BOOL_FALSE") ∧
    ∃ studies, resultStudies (.obj [("elements", .obj [("kFieldTrialConfig",
        .obj [("studies", .list multiIosExpectedStudies)])])]) = some studies ∧
      ∃ s ∈ studies, s.getKey "name" = some (.str "Trial1") ∧
        ∃ exps, s.getKey "experiments" = some (.list exps) ∧
          ∃ ex ∈ exps, ex.getKey "name" = some (.str "IOSOnly") ∧
            ex.getKey "is_low_end_device" =
              some (.str (optional_bool_symbol
                (PlatformConfig.mk ["ios"] [] none
                  [Experiment.mk "IOSOnly" [] none none none]).is_low_end_device)) :=
  low_end_flag_inherited_from_entry multiPlatformConfig ["ios"] _
    (by decide) (by decide) model_matches_test_multi_ios
    "Trial1"
    [PlatformConfig.mk ["windows", "ios"] [] (some true)
       [Experiment.mk "Group1" [("x", "1"), ("y", "2")]
          (some ["A", "B"]) (some ["C"]) none,
        Experiment.mk "Group2" [("x", "3"), ("y", "4")]
          (some ["D", "E"]) (some ["F"]) none],
     PlatformConfig.mk ["ios"] [] none [Experiment.mk "IOSOnly" [] none none none]]
    (PlatformConfig.mk ["ios"] [] none [Experiment.mk "IOSOnly" [] none none none])
    (Experiment.mk "IOSOnly" [] none none none)
    (by decide) (by decide) (by decide) (by decide)

/-- Counterexample to C6 as stated: the form-factor tags desktop and
phone of the form-factor fixture map to the symbols Study::DESKTOP and
Study::PHONE, which differ from the DESKTOP and PHONE claimed. -/
theorem form_factor_symbols_counterexample :
    experimentField
        (_FieldTrialConfigToDescription multiFormFactorsConfig ["windows"])
        0 0 "form_factors" =
      some (.list [.str "Study::DESKTOP", .str "Study::PHONE"]) ∧
    JValue.list [.str "Study::DESKTOP", .str "Study::PHONE"] ≠
      JValue.list [.str "DESKTOP", .str "PHONE"] := by
  refine ⟨rfl, ?_⟩
  intro h
  injection h with h1
  injection h1 with h2 h3
  injection h2 with h4
  exact absurd h4 (by decide)

/-- C6 amended: a contributing PlatformConfig with no form factors
yields the empty output list; otherwise each declared tag is mapped
one-to-one, order preserved, through the fixed table
desktop to Study::DESKTOP, phone to Study::PHONE, tablet to
Study::TABLET. -/
theorem form_factors_mapped_per_entry
    (cfg : FieldTrialConfig) (platforms : List String) (r : JValue)
    (hq : platforms.all (fun t => (platform_symbol t).isSome) = true)
    (hc : validConfig cfg = true)
    (hok : _FieldTrialConfigToDescription cfg platforms = .ok r)
    (n : String) (entries : List PlatformConfig) (pc : PlatformConfig)
    (e : Experiment) (hmem : (n, entries) ∈ cfg) (hpc : pc ∈ entries)
    (hm : entryMatches platforms pc = true) (he : e ∈ pc.experiments) :
    (form_factor_symbol "desktop" = some "Study::DESKTOP" ∧
     form_factor_symbol "phone" = some "Study::PHONE" ∧
     form_factor_symbol "tablet" = some "Study::TABLET" ∧
     ["desktop", "phone"].filterMap form_factor_symbol =
       ["Study::DESKTOP", "Study::PHONE"]) ∧
    (pc.form_factors.filterMap form_factor_symbol).length =
      pc.form_factors.length ∧
    ∃ studies, resultStudies r = some studies ∧
      ∃ s ∈ studies, s.getKey "name" = some (.str n) ∧
        ∃ exps, s.getKey "experiments" = some (.list exps) ∧
          ∃ ex ∈ exps, ex.getKey "name" = some (.str e.name) ∧
            ex.getKey "form_factors" =
              some (.list ((pc.form_factors.filterMap form_factor_symbol).map .str)) ∧
            (pc.form_factors = [] → ex.getKey "form_factors" = some (.list [])) := by
  refine ⟨⟨rfl, rfl, rfl, rfl⟩, ?_, ?_⟩
  · have hv := validEntry_of_mem cfg n entries pc hc hmem hpc
    rw [validEntry, Bool.and_eq_true] at hv
    exact filterMap_length_of_isSome form_factor_symbol pc.form_factors hv.2
  · rw [description_eq_spec cfg platforms hq hc] at hok
    cases hok
    refine ⟨_, resultStudies_wrap _, ?_⟩
    refine ⟨.obj [("name", .str n),
                 ("experiments", .list (studyExperimentsSpec
                   (platforms.filterMap platform_symbol) platforms entries))],
            ?_, study_getKey_name _ _, ?_⟩
    · rw [studiesSpec]
      exact List.mem_map.mpr ⟨(n, entries),
        List.mem_filter.mpr ⟨hmem, List.any_eq_true.mpr ⟨pc, hpc, hm⟩⟩, rfl⟩
    · refine ⟨_, study_getKey_experiments _ _, ?_⟩
      refine ⟨_CreateExperiment e (platforms.filterMap platform_symbol)
                pc.is_low_end_device
                (pc.form_factors.filterMap form_factor_symbol), ?_,
              getKey_name _ _ _ _, getKey_form_factors _ _ _ _, ?_⟩
      · rw [studyExperimentsSpec]
        exact List.mem_flatMap.mpr ⟨pc, List.mem_filter.mpr ⟨hpc, hm⟩,
          List.mem_map.mpr ⟨e, he, rfl⟩⟩
      · intro hff
        rw [getKey_form_factors, hff]
        rfl

/-- Witness for C6 amended at the form-factor fixture queried for
windows. -/
theorem form_factors_mapped_per_entry_witness :
    (form_factor_symbol "desktop" = some "Study::DESKTOP" ∧
     form_factor_symbol "phone" = some "Study::PHONE" ∧
     form_factor_symbol "tablet" = some "Study::TABLET" ∧
     ["desktop", "phone"].filterMap form_factor_symbol =
       ["Study::DESKTOP", "Study::PHONE"]) ∧
    ((["desktop", "phone"].filterMap form_factor_symbol).length =
      (["desktop", "phone"] : List String).length) ∧
    ∃ studies, resultStudies (.obj [("elements", .obj [("kFieldTrialConfig",
        .obj [("studies", .list formFactorsExpectedStudies)])])]) = some studies ∧
      ∃ s ∈ studies, s.getKey "name" = some (.str "Trial1") ∧
        ∃ exps, s.getKey "experiments" = some (.list exps) ∧
          ∃ ex ∈ exps, ex.getKey "name" = some (.str "Group1") ∧
            ex.getKey "form_factors" =
              some (.list ((["desktop", "phone"].filterMap form_factor_symbol).map .str)) ∧
            ((["desktop", "phone"] : List String) = [] →
              ex.getKey "form_factors" = some (.list [])) :=
  form_factors_mapped_per_entry multiFormFactorsConfig ["windows"] _
    (by decide) (by decide) model_matches_test_form_factors
    "Trial1"
    [PlatformConfig.mk ["windows"] ["desktop", "phone"] none
       [Experiment.mk "Group1" [] none none none]]
    (PlatformConfig.mk ["windows"] ["desktop", "phone"] none
       [Experiment.mk "Group1" [] none none none])
    (Experiment.mk "Group1" [] none none none)
    (by decide) (by decide) (by decide) (by decide)

/-- C7: a Study appears in the output exactly when at least one
PlatformConfig of its trial declares a queried platform, and, whenever
every entry of the configuration declares at least one experiment, no
emitted Study has an empty experiment list. -/
theorem study_emitted_iff_platform_matched
    (cfg : FieldTrialConfig) (platforms : List String) (r : JValue)
    (hq : platforms.all (fun t => (platform_symbol t).isSome) = true)
    (hc : validConfig cfg = true)
    (hok : _FieldTrialConfigToDescription cfg platforms = .ok r) :
    ∃ studies, resultStudies r = some studies ∧
      (∀ n : String,
        (∃ s ∈ studies, s.getKey "name" = some (.str n)) ↔
        (∃ entries, (n, entries) ∈ cfg ∧
          ∃ pc ∈ entries, entryMatches platforms pc = true)) ∧
      ((∀ tr ∈ cfg, ∀ pc ∈ tr.2, pc.experiments ≠ []) →
        ∀ s ∈ studies, ∀ exps, s.getKey "experiments" = some (.list exps) →
          exps ≠ []) := by
  rw [description_eq_spec cfg platforms hq hc] at hok
  cases hok
  refine ⟨_, resultStudies_wrap _, ?_, ?_⟩
  · intro n
    constructor
    · rintro ⟨s, hs, hname⟩
      rw [studiesSpec] at hs
      obtain ⟨tr, htr, rfl⟩ := List.mem_map.mp hs
      rw [study_getKey_name] at hname
      injection hname with h1
      injection h1 with h2
      obtain ⟨htrm, hmatch⟩ := List.mem_filter.mp htr
      rw [trialHasMatch] at hmatch
      refine ⟨tr.2, ?_, List.any_eq_true.mp hmatch⟩
      rw [← h2]
      exact htrm
    · rintro ⟨entries, hmem, pc, hpc, hm⟩
      refine ⟨.obj [("name", .str n),
                   ("experiments", .list (studyExperimentsSpec
                     (platforms.filterMap platform_symbol) platforms entries))],
              ?_, study_getKey_name _ _⟩
      rw [studiesSpec]
      exact List.mem_map.mpr ⟨(n, entries),
        List.mem_filter.mpr ⟨hmem, List.any_eq_true.mpr ⟨pc, hpc, hm⟩⟩, rfl⟩
  · intro hne s hs exps hexps
    rw [studiesSpec] at hs
    obtain ⟨tr, htr, rfl⟩ := List.mem_map.mp hs
    rw [study_getKey_experiments] at hexps
    injection hexps with h1
    injection h1 with h2
    obtain ⟨htrm, hmatch⟩ := List.mem_filter.mp htr
    rw [trialHasMatch] at hmatch
    obtain ⟨pc, hpc, hm⟩ := List.any_eq_true.mp hmatch
    have hpcf : pc ∈ tr.2.filter (entryMatches platforms) :=
      List.mem_filter.mpr ⟨hpc, hm⟩
    have hepc := hne tr htrm pc hpc
    cases hexp : pc.experiments with
    | nil => exact absurd hexp hepc
    | cons e es =>
      rw [← h2, studyExperimentsSpec]
      apply List.ne_nil_of_mem
        (a := _CreateExperiment e (platforms.filterMap platform_symbol)
          pc.is_low_end_device (pc.form_factors.filterMap form_factor_symbol))
      exact List.mem_flatMap.mpr ⟨pc, hpcf,
        List.mem_map.mpr ⟨e, by rw [hexp]; exact List.mem_cons_self e es, rfl⟩⟩

/-- Witness for C7 at the multi-platform fixture queried for mac: the
study names of the output are exactly the trials with a mac entry
(Trial2), and no emitted study is empty. -/
theorem study_emitted_iff_platform_matched_witness :
    ∃ studies, resultStudies (.obj [("elements", .obj [("kFieldTrialConfig",
        .obj [("studies", .list multiMacExpectedStudies)])])]) = some studies ∧
      (∀ n : String,
        (∃ s ∈ studies, s.getKey "name" = some (.str n)) ↔
        (∃ entries, (n, entries) ∈ multiPlatformConfig ∧
          ∃ pc ∈ entries, entryMatches ["mac"] pc = true)) ∧
      ((∀ tr ∈ multiPlatformConfig, ∀ pc ∈ tr.2, pc.experiments ≠ []) →
        ∀ s ∈ studies, ∀ exps, s.getKey "experiments" = some (.list exps) →
          exps ≠ []) :=
  study_emitted_iff_platform_matched multiPlatformConfig ["mac"] _
    (by decide) (by decide) model_matches_test_multi_mac

/-- C10: the transformer takes a list of platform tags; for a singleton
query, the platforms field of every output experiment is the singleton
list of the symbol of the queried platform. -/
theorem platforms_field_echoes_query
    (cfg : FieldTrialConfig) (p sym : String) (r : JValue)
    (hp : platform_symbol p = some sym)
    (hc : validConfig cfg = true)
    (hok : _FieldTrialConfigToDescription cfg [p] = .ok r)
    (studies : List JValue) (hs : resultStudies r = some studies)
    (s : JValue) (hmem : s ∈ studies)
    (exps : List JValue) (he : s.getKey "experiments" = some (.list exps))
    (ex : JValue) (hex : ex ∈ exps) :
    ex.getKey "platforms" = some (.list [.str sym]) := by
  have hq : [p].all (fun t => (platform_symbol t).isSome) = true := by
    rw [List.all_cons, hp]; rfl
  rw [description_eq_spec cfg [p] hq hc] at hok
  cases hok
  rw [resultStudies_wrap] at hs
  injection hs with hs1
  subst hs1
  rw [studiesSpec] at hmem
  obtain ⟨tr, htr, rfl⟩ := List.mem_map.mp hmem
  rw [study_getKey_experiments] at he
  injection he with he1
  injection he1 with he2
  subst he2
  rw [studyExperimentsSpec] at hex
  obtain ⟨pc, hpc, hex2⟩ := List.mem_flatMap.mp hex
  obtain ⟨e, hee, rfl⟩ := List.mem_map.mp hex2
  rw [getKey_platforms]
  rw [List.filterMap_cons, hp]
  rfl

/-- Witness for C10 at the multi-platform fixture queried for the
singleton mac list. -/
theorem platforms_field_echoes_query_witness :
    (JValue.obj [("name", .str "OtherGroup"),
                 ("platforms", .list [.str "Study::PLATFORM_MAC"]),
                 ("is_low_end_device", .str "Study::OPTIONAL_BOOL_MISSING"),
                 ("form_factors", .list [])]).getKey "platforms" =
      some (.list [.str "Study::PLATFORM_MAC"]) :=
  platforms_field_echoes_query multiPlatformConfig "mac" "Study::PLATFORM_MAC" _
    rfl (by decide) model_matches_test_multi_mac
    multiMacExpectedStudies rfl
    (.obj [("name", .str "Trial2"),
           ("experiments", .list
             [.obj [("name", .str "OtherGroup"),
                    ("platforms", .list [.str "Study::PLATFORM_MAC"]),
                    ("is_low_end_device", .str "Study::OPTIONAL_BOOL_MISSING"),
                    ("form_factors", .list [])]])])
    (List.mem_singleton.mpr rfl)
    [.obj [("name", .str "OtherGroup"),
           ("platforms", .list [.str "Study::PLATFORM_MAC"]),
           ("is_low_end_device", .str "Study::OPTIONAL_BOOL_MISSING"),
           ("form_factors", .list [])]]
    rfl
    (.obj [("name", .str "OtherGroup"),
           ("platforms", .list [.str "Study::PLATFORM_MAC"]),
           ("is_low_end_device", .str "Study::OPTIONAL_BOOL_MISSING"),
           ("form_factors", .list [])])
    (List.mem_singleton.mpr rfl)

/-- Counterexample to C1 as stated: in the first-match example of the
spec, querying windows yields a study with two experiments; E2, declared
by the second (later) matching entry, appears in the output. -/
theorem first_match_wins_counterexample :
    experimentField
        (_FieldTrialConfigToDescription firstMatchExampleConfig ["windows"])
        0 1 "name" = some (.str "E2") ∧
    experimentField
        (_FieldTrialConfigToDescription firstMatchExampleConfig ["windows"])
        0 0 "name" = some (.str "E1") := ⟨rfl, rfl⟩

/-- C1 amended: in the first-match example, querying windows yields one
study containing the experiments of both matching entries, those of the
first entry first, so E1 followed by E2. -/
theorem all_matching_entries_contribute :
    _FieldTrialConfigToDescription firstMatchExampleConfig ["windows"] =
      .ok (.obj [("elements", .obj [("kFieldTrialConfig", .obj [("studies",
        .list [.obj [("name", .str "T"),
                     ("experiments", .list
                       [.obj [("name", .str "E1"),
                              ("platforms", .list [.str "Study::PLATFORM_WINDOWS"]),
                              ("is_low_end_device",
                               .str "Study::OPTIONAL_BOOL_MISSING"),
                              ("form_factors", .list [])],
                        .obj [("name", .str "E2"),
                              ("platforms", .list [.str "Study::PLATFORM_WINDOWS"]),
                              ("is_low_end_device",
                               .str "Study::OPTIONAL_BOOL_MISSING"),
                              ("form_factors", .list [])]])]])])])]) := rfl

/-- Counterexample to C2 as stated: in the literal scenario, the
platform entry of the output experiment is the string
Study::PLATFORM_WINDOWS and the low-end-device entry is the string
Study::OPTIONAL_BOOL_MISSING, not the unprefixed strings of the
claim. -/
theorem literal_scenario_counterexample :
    experimentField
        (_FieldTrialConfigToDescription literalScenarioConfig ["windows"])
        0 0 "platforms" = some (.list [.str "Study::PLATFORM_WINDOWS"]) ∧
    JValue.list [.str "Study::PLATFORM_WINDOWS"] ≠
      JValue.list [.str "PLATFORM_WINDOWS"] ∧
    experimentField
        (_FieldTrialConfigToDescription literalScenarioConfig ["windows"])
        0 0 "is_low_end_device" = some (.str "Study::OPTIONAL_BOOL_MISSING") ∧
    JValue.str "Study::OPTIONAL_BOOL_MISSING" ≠
      JValue.str "OPTIONAL_BOOL_MISSING" := by
  refine ⟨rfl, ?_, rfl, ?_⟩
  · intro h
    injection h with h1
    injection h1 with h2 h3
    injection h2 with h4
    exact absurd h4 (by decide)
  · intro h
    injection h with h1
    exact absurd h1 (by decide)

/-- C2 amended: the literal scenario yields exactly one study T with one
experiment G1 whose platform symbol is Study::PLATFORM_WINDOWS, whose
params are the single pair x to 1, whose low-end-device symbol is
Study::OPTIONAL_BOOL_MISSING and whose form factors are empty. -/
theorem literal_scenario_output :
    _FieldTrialConfigToDescription literalScenarioConfig ["windows"] =
      .ok (.obj [("elements", .obj [("kFieldTrialConfig", .obj [("studies",
        .list [.obj [("name", .str "T"),
                     ("experiments", .list
                       [.obj [("name", .str "G1"),
                              ("platforms", .list [.str "Study::PLATFORM_WINDOWS"]),
                              ("is_low_end_device",
                               .str "Study::OPTIONAL_BOOL_MISSING"),
                              ("form_factors", .list []),
                              ("params", .list
                                [.obj [("key", .str "x"),
                                       ("value", .str "1")]])]])]])])])]) := rfl

/-- Counterexample to C3 as stated: the elements object of the output
does not directly contain a studies key; the studies sit one level
lower, inside the kFieldTrialConfig object. -/
theorem nesting_counterexample :
    ((_FieldTrialConfigToDescription basicConfig ["windows"]).toOption.bind
       (fun r => (r.getKey "elements").bind
         (fun el => el.getKey "studies"))) = none ∧
    ((_FieldTrialConfigToDescription basicConfig ["windows"]).toOption.bind
       (fun r => (r.getKey "elements").bind
         (fun el => el.getKey "kFieldTrialConfig"))) =
      some (.obj [("studies", .list basicExpectedStudies)]) := ⟨rfl, rfl⟩

/-- C3 amended: every successful description is the fixed nesting
elements to kFieldTrialConfig to studies, the studies being a list. -/
theorem description_has_fixed_nesting
    (cfg : FieldTrialConfig) (platforms : List String) (r : JValue)
    (hok : _FieldTrialConfigToDescription cfg platforms = .ok r) :
    ∃ studies : List JValue,
      r = .obj [("elements", .obj [("kFieldTrialConfig",
            .obj [("studies", .list studies)])])] := by
  simp only [_FieldTrialConfigToDescription] at hok
  cases h1 : mapSymbols platform_symbol platforms with
  | error m => simp only [h1] at hok; exact Except.noConfusion hok
  | ok qsyms =>
    simp only [h1] at hok
    cases h2 : _CreateStudies qsyms platforms cfg with
    | error m => simp only [h2] at hok; exact Except.noConfusion hok
    | ok studies =>
      simp only [h2] at hok
      injection hok with h3
      exact ⟨studies, h3.symm⟩

/-- Witness for C3 amended at the basic fixture. -/
theorem description_has_fixed_nesting_witness :
    ∃ studies : List JValue,
      JValue.obj [("elements", .obj [("kFieldTrialConfig",
          .obj [("studies", .list basicExpectedStudies)])])] =
        .obj [("elements", .obj [("kFieldTrialConfig",
          .obj [("studies", .list studies)])])] :=
  description_has_fixed_nesting basicConfig ["windows"] _ model_matches_test_basic

/-- C8: in every translated experiment, params is the ordered key/value
pair list in the original key order and the key is absent when no params
are declared; enable_features, disable_features and forcing_flag appear
verbatim when declared and are absent otherwise. -/
theorem optional_fields_passed_or_omitted (e : Experiment)
    (qsyms : List String) (lowEnd : Option Bool) (ffSyms : List String) :
    ((_CreateExperiment e qsyms lowEnd ffSyms).getKey "params" =
       if e.params = [] then none
       else some (.list (e.params.map fun kv =>
              .obj [("key", .str kv.1), ("value", .str kv.2)]))) ∧
    ((_CreateExperiment e qsyms lowEnd ffSyms).getKey "enable_features" =
       e.enable_features.map (fun fs => .list (fs.map .str))) ∧
    ((_CreateExperiment e qsyms lowEnd ffSyms).getKey "disable_features" =
       e.disable_features.map (fun fs => .list (fs.map .str))) ∧
    ((_CreateExperiment e qsyms lowEnd ffSyms).getKey "forcing_flag" =
       e.forcing_flag.map .str) := by
  obtain ⟨nm, ps, ef, df, ff⟩ := e
  cases ps <;> cases ef <;> cases df <;> cases ff <;>
    simp [_CreateExperiment, JValue.getKey, lookupKey]

/-- C9, modelled from the spec: any unknown platform tag in the query or
in an entry of the configuration, and any unknown form-factor tag in an
entry, makes the transformation fail with an error instead of producing
a description. -/
theorem unknown_enum_tag_rejected (cfg : FieldTrialConfig)
    (platforms : List String)
    (h : (∃ t ∈ platforms, platform_symbol t = none) ∨
         ∃ tr ∈ cfg, ∃ pc ∈ tr.2,
           (∃ t ∈ pc.platforms, platform_symbol t = none) ∨
           (∃ t ∈ pc.form_factors, form_factor_symbol t = none)) :
    ∃ m, _FieldTrialConfigToDescription cfg platforms = .error m := by
  rcases h with hquery | hconfig
  · obtain ⟨m, hm⟩ := mapSymbols_error_of_unknown platform_symbol platforms hquery
    exact ⟨m, by simp only [_FieldTrialConfigToDescription, hm]⟩
  · cases h1 : mapSymbols platform_symbol platforms with
    | error m => exact ⟨m, by simp only [_FieldTrialConfigToDescription, h1]⟩
    | ok qsyms =>
      obtain ⟨m, hm⟩ := createStudies_error_of_unknown qsyms platforms cfg hconfig
      exact ⟨m, by simp only [_FieldTrialConfigToDescription, h1, hm]⟩

/-- Witness for C9: the atari platform tag is outside the closed
enumeration and makes the transformation fail. -/
theorem unknown_enum_tag_rejected_witness :
    (∃ tr ∈ atariConfig, ∃ pc ∈ tr.2,
       (∃ t ∈ pc.platforms, platform_symbol t = none) ∨
       (∃ t ∈ pc.form_factors, form_factor_symbol t = none)) ∧
    ∃ m, _FieldTrialConfigToDescription atariConfig ["windows"] = .error m :=
  ⟨by decide,
   unknown_enum_tag_rejected atariConfig ["windows"] (Or.inr (by decide))⟩
